import Mathlib

/-
Verification development for tcam_capture/TcamView.py (tiscamera tcam-capture tool).

The Python source is shallowly embedded: each relevant method becomes a pure
Lean function over explicit state; side effects (GStreamer state requests,
log calls, observer invocations, Qt menu construction) become explicit action
traces or returned data structures.  Python exceptions become Except results.
-/

set_option autoImplicit false

namespace TcamView

/-- GStreamer pipeline states used by TcamView (Gst.State). -/
inductive GstState where
  | null
  | ready
  | paused
  | playing
  deriving DecidableEq, Repr

/-- Observable effects performed by TcamView.on_error / fire_device_lost.
Callbacks registered via register_device_lost are identified by a Nat id;
setState is included so that the trace can witness whether the error handler
requests any pipeline state transition (it never does). -/
inductive EAction where
  | logError (s : String)
  | logDebug (s : String)
  | invokeCb (i : Nat)
  | setState (s : GstState)
  deriving DecidableEq, Repr

/-- TcamView.register_device_lost: appends the callback to
self.device_lost_callbacks (source line 492-493). -/
def register_device_lost (callbacks : List Nat) (cb : Nat) : List Nat :=
  callbacks ++ [cb]

/-- TcamView.fire_device_lost: invokes every registered callback in list
order (source line 495-497). -/
def fire_device_lost (callbacks : List Nat) : List EAction :=
  callbacks.map EAction.invokeCb

/-- An asynchronous GStreamer bus error message as consumed by
TcamView.on_error: the emitting element name (msg.src.get_name()), the parsed
error message text (err.message) and optional debug info (dbg). -/
structure ErrorMsg where
  srcName : String
  errMessage : String
  dbg : Option String
  deriving DecidableEq, Repr

/-- TcamView.on_error (source lines 336-348), as the trace of effects it
performs given the current device_lost_callbacks list and the bus message. -/
def on_error (callbacks : List Nat) (msg : ErrorMsg) : List EAction :=
  if msg.srcName = "tcambin-source" then
    if msg.errMessage = "Device lost" then
      EAction.logError "Received device lost message" :: fire_device_lost callbacks
    else
      [EAction.logError ("Error from source: " ++ msg.errMessage)]
  else
    EAction.logError ("ERROR: " ++ msg.srcName ++ " : " ++ msg.errMessage) ::
      (match msg.dbg with
       | some d => [EAction.logDebug ("Debug info: " ++ d)]
       | none => [])

/-- The callback ids invoked by a trace, in order. -/
def invokedCbs (trace : List EAction) : List Nat :=
  trace.filterMap (fun a =>
    match a with
    | EAction.invokeCb i => some i
    | _ => none)

/-- Whether a trace contains any pipeline state request. -/
def requestsState (trace : List EAction) : Bool :=
  trace.any (fun a =>
    match a with
    | EAction.setState _ => true
    | _ => false)

/-- Pipeline-facing operations performed by TcamView.play. -/
inductive PAction where
  | createPipeline
  | setState (s : GstState)
  | setCaps (fmt : String)
  deriving DecidableEq, Repr

/-- TcamView.play (source lines 248-261) as a trace of pipeline operations.
The argument pipeline is None (no pipeline constructed yet) or the state the
existing pipeline currently reports via get_state.  create_pipeline
(lines 291-324) ends by requesting the READY state, so a freshly constructed
pipeline reports ready, never playing, at the subsequent check. -/
def play (pipeline : Option GstState) (video_format : Option String) : List PAction :=
  let constructed : List PAction :=
    match pipeline with
    | none => [PAction.createPipeline, PAction.setState GstState.ready]
    | some _ => []
  let st : GstState :=
    match pipeline with
    | none => GstState.ready
    | some s => s
  let nullStep : List PAction :=
    if st = GstState.playing then [PAction.setState GstState.null] else []
  let capsStep : List PAction :=
    match video_format with
    | some f => [PAction.setCaps f]
    | none => []
  constructed ++ nullStep ++ capsStep ++ [PAction.setState GstState.playing]

/-- The capture-session view state relevant to stop(): self.pipeline is None
until create_pipeline has run (TcamView.__init__, line 198); afterwards it
holds a pipeline handle whose current state we track. -/
structure ViewState where
  pipeline : Option GstState
  deriving DecidableEq, Repr

/-- TcamView.stop (source lines 330-334): self.pipeline.set_state(Gst.State.NULL).
When self.pipeline is None (the uninitialized session state), the attribute
access on None raises; otherwise the pipeline is driven to the null state. -/
def stop (v : ViewState) : Except String ViewState :=
  match v.pipeline with
  | none => Except.error "AttributeError: NoneType object has no attribute set_state"
  | some _ => Except.ok (ViewState.mk (some GstState.null))

/-- TcamView.__init__ leaves the session uninitialized: self.pipeline = None,
self.device_lost_callbacks = [] (source lines 196-204). -/
def initialViewState : ViewState := ViewState.mk none

end TcamView

namespace TcamScreen

/-- TcamScreen.wheelEvent zoom arithmetic (source lines 128-154): the wheel
zoom factors 1.25 (zoom in) and 1/1.25 (zoom out), modelled exactly over Q. -/
def zoomInFactor : ℚ := 125 / 100

/-- The reciprocal zoom-out factor, 1 / 1.25. -/
def zoomOutFactor : ℚ := 1 / zoomInFactor

/-- One TcamScreen.wheelEvent step acting on self.zoom_factor: forward wheel
motion (angleDelta().y() > 0) selects zoomInFactor, otherwise zoomOutFactor;
a step whose product would be at or below 0.64 returns early without
modifying the factor (source lines 141-150). -/
def wheelEvent (zoom_factor : ℚ) (forward : Bool) : ℚ :=
  let zoomFactor : ℚ := if forward then zoomInFactor else zoomOutFactor
  if zoom_factor * zoomFactor ≤ 64 / 100 then
    zoom_factor
  else
    zoom_factor * zoomFactor

/-- A sequence of wheel steps applied to a starting cumulative zoom factor.
TcamScreen.__init__ sets self.zoom_factor = 1.0 (source line 111). -/
def wheelEvents (zoom_factor : ℚ) (steps : List Bool) : ℚ :=
  steps.foldl wheelEvent zoom_factor

end TcamScreen

namespace ViewItem

/-- A QColor as produced by QColor(r, g, b): red, green, blue and alpha
channels; the three-argument constructor yields an opaque color (alpha 255). -/
structure QColor where
  r : Nat
  g : Nat
  b : Nat
  a : Nat
  deriving DecidableEq, Repr

/-- QColor(0, 0, 0): opaque black. -/
def opaqueBlack : QColor := QColor.mk 0 0 0 255

/-- A QPixmap as consumed by ViewItem.get_mouse_color: a width, a height and
the pixel colors of its image (pixelColor). -/
structure QPixmap where
  width : Nat
  height : Nat
  pixelColor : Int → Int → QColor

/-- ViewItem state: the mouse_over flag and last hover coordinates set by the
hover event handlers, plus the current pixmap (source lines 43-63). -/
structure ItemState where
  mouse_over : Bool
  mouse_position_x : Int
  mouse_position_y : Int
  pixmap : QPixmap

/-- ViewItem.get_mouse_color (source lines 65-75).  Returns the color result
together with the possibly updated item state.  When the mouse is over the
item and both recorded coordinates are at most the pixmap dimensions, the
pixel at that coordinate is queried; when a coordinate exceeds a dimension
the recorded coordinates are reset to -1 and the function falls through
without a return statement, yielding Python None (modelled as Option.none);
when the mouse is not over the item, opaque black is returned. -/
def get_mouse_color (v : ItemState) : Option QColor × ItemState :=
  if v.mouse_over then
    if v.mouse_position_x ≤ (v.pixmap.width : Int) ∧
       v.mouse_position_y ≤ (v.pixmap.height : Int) then
      (some (v.pixmap.pixelColor v.mouse_position_x v.mouse_position_y), v)
    else
      (none, ItemState.mk v.mouse_over (-1) (-1) v.pixmap)
  else
    (some opaqueBlack, v)

/-- TcamScreen.on_new_pixmap followed by send_mouse_pixel (source lines
113-120): the new pixmap replaces the item pixmap, then the pair
(self.pix.mouse_over, self.pix.get_mouse_color()) is emitted on the
new_pixel_under_mouse signal.  Returns the emitted pair and the item state
after the call. -/
def on_new_pixmap (v : ItemState) (pm : QPixmap) : (Bool × Option QColor) × ItemState :=
  let v1 := ItemState.mk v.mouse_over v.mouse_position_x v.mouse_position_y pm
  let r := get_mouse_color v1
  ((v1.mouse_over, r.1), r.2)

end ViewItem

namespace EventFilter

/-- A Python runtime value as far as the comparison in TcamView.eventFilter
is concerned: event.type (without parentheses) evaluates to a bound method
object, while QEvent.KeyPress is an integer enum value.  Python == between a
bound method and an int is False (no __eq__ overlap between the types). -/
inductive PyVal where
  | boundMethod (obj : Nat) (name : String)
  | intVal (n : Int)
  deriving DecidableEq, Repr

/-- Python equality restricted to the values above: two bound methods are
equal when they name the same method of the same object, two ints compare
numerically, and a bound method never equals an int. -/
def pyEq (a b : PyVal) : Bool :=
  match a, b with
  | PyVal.boundMethod o1 n1, PyVal.boundMethod o2 n2 => o1 == o2 && n1 == n2
  | PyVal.intVal m, PyVal.intVal n => m == n
  | _, _ => false

/-- A QEvent as consulted by TcamView.eventFilter, identified by a Python
object id, its actual type tag, and its key code (for key events). -/
structure QEventObj where
  objId : Nat
  typeTag : Int
  key : Int
  deriving DecidableEq, Repr

/-- QEvent.KeyPress enum value (Qt: 6). -/
def keyPressTag : Int := 6

/-- Qt.Key_F11 key code (0x0100003a). -/
def keyF11 : Int := 16777274

/-- Result of TcamView.eventFilter: whether toggle_fullscreen was called and
whether the filter returned True (consumed) or deferred to
QObject.eventFilter (the default filter). -/
structure FilterResult where
  calledToggleFullscreen : Bool
  returnedDefault : Bool
  deriving DecidableEq, Repr

/-- TcamView.eventFilter (source lines 209-216).  The source compares
event.type — the bound method object, not the result of calling it — against
QEvent.KeyPress, so the guard is pyEq of a bound method and an int. -/
def eventFilter (event : QEventObj) : FilterResult :=
  if pyEq (PyVal.boundMethod event.objId "type") (PyVal.intVal keyPressTag) then
    if event.key = keyF11 then
      FilterResult.mk true false
    else
      FilterResult.mk false true
  else
    FilterResult.mk false true

end EventFilter

namespace FormatMenuBuilder

/-- Python list-prefix test on characters, used to embed the substring
membership operator. -/
def charsPrefix : List Char → List Char → Bool
  | [], _ => true
  | _ :: _, [] => false
  | a :: as, b :: bs => a == b && charsPrefix as bs

/-- Whether needle occurs as a contiguous run inside hay. -/
def charsContains (needle : List Char) : List Char → Bool
  | [] => needle.isEmpty
  | b :: bs => charsPrefix needle (b :: bs) || charsContains needle bs

/-- The Python substring membership operator: needle in hay for strings. -/
def pyIn (needle hay : String) : Bool :=
  charsContains needle.data hay.data

/-- A GStreamer structure field value as read by fmt.get_value for width and
height: a fixed integer, an integer range (whose Python str rendering is of
the form [lo,hi], per the source comment about entries like
[96,2592]x[2,1944]), or an absent field (Python None, str None). -/
inductive GVal where
  | intVal (n : Int)
  | intRange (lo hi : Int)
  | noneVal
  deriving DecidableEq, Repr

/-- The Python str rendering of a field value, as interpolated by
str.format in the source. -/
def GVal.toStr : GVal → String
  | GVal.intVal n => toString n
  | GVal.intRange lo hi => "[" ++ toString lo ++ "," ++ toString hi ++ "]"
  | GVal.noneVal => "None"

/-- The framerate field as returned by get_framerates (source lines
383-392): a discrete list of rate strings (the GstValueList case, which the
source obtains through the textual brace-splitting fallback because GI lacks
GstValueList support), a single Gst.Fraction, a Gst.FractionRange, or an
absent field (None). -/
inductive RateVal where
  | rlist (rs : List String)
  | fraction (num den : Int)
  | fractionRange (lo hi : Int)
  | noneVal
  deriving DecidableEq, Repr

/-- One capability structure of the caps list returned by
query_caps on the source pad: its name (fmt.get_name()), its format field
(fmt.get_value, None when the field is absent or not marshallable), its
width and height fields, and its framerate field. -/
structure CapsStructure where
  name : String
  format : Option String
  width : GVal
  height : GVal
  framerate : RateVal
  deriving DecidableEq, Repr

/-- A rate action in a resolution submenu: its label (the rate string) and
the capability-constraint string the triggered handler passes to play. -/
structure FormatAction where
  label : String
  playArg : String
  deriving DecidableEq, Repr

/-- A resolution submenu: its title (the WxH string) and its rate actions. -/
structure ResMenu where
  title : String
  actions : List FormatAction
  deriving DecidableEq, Repr

/-- A top-level per-format menu of format_dict.  createdBy instruments the
construction with the index of the caps structure whose processing first
created this menu, and each resolution submenu is likewise paired with the
index of the caps structure that added it; the instrumentation records
provenance and does not alter the construction. -/
structure FormatMenu where
  title : String
  createdBy : Nat
  resolutions : List (Nat × ResMenu)
  deriving DecidableEq, Repr

/-- The rate actions added for one retained caps structure (source lines
454-471): one QAction per rate in the discrete list, labeled with the rate,
whose triggered handler is functools.partial(self.play, f) with f the
capability-constraint string; image/jpeg omits the format= field. -/
def mkActions (format_name format_string : String) (width height : GVal)
    (rs : List String) : List FormatAction :=
  rs.map (fun rate =>
    if format_string == "image/jpeg" then
      FormatAction.mk rate
        (format_name ++ ",,width=" ++ width.toStr ++ ",height=" ++ height.toStr ++
          ",framerate=" ++ rate)
    else
      FormatAction.mk rate
        (format_name ++ ",format=" ++ format_string ++ ",width=" ++ width.toStr ++
          ",height=" ++ height.toStr ++ ",framerate=" ++ rate))

/-- Processing of one caps structure by the loop body of
TcamView.create_format_menu (source lines 396-471), threading the menu list
(format_dict in insertion order).  j is the loop index of the structure.
Skips mirror the source: a name containing ANY; a format field whose
get_value returned None (the subsequent membership test on None raises
TypeError, caught by the except TypeError handler: the entry is skipped);
BGRx-containing formats without GRAY are renamed GRAY8, other
BGRx-containing formats are dropped, as is the literal string None; the
top-level menu for the format is created before the remaining checks run;
entries whose rendered f_str contains None, whose format contains range, or
whose resolution string contains the range marker are then skipped; finally
a resolution submenu is added, left empty unless the framerate field is a
discrete list. -/
def processStructure (j : Nat) (menus : List FormatMenu) (fmt : CapsStructure) :
    List FormatMenu :=
  let format_name := fmt.name
  if pyIn "ANY" format_name then menus else
  match (if format_name == "image/jpeg" then some format_name else fmt.format) with
  | none => menus
  | some fs0 =>
    match (if pyIn "BGRx" fs0 && !(pyIn "GRAY" fs0) then some "GRAY8"
           else if pyIn "BGRx" fs0 then none
           else if fs0 == "None" then none
           else some fs0) with
    | none => menus
    | some format_string =>
      let width := fmt.width
      let height := fmt.height
      let menus1 :=
        if menus.any (fun m => m.title == format_string) then menus
        else menus ++ [FormatMenu.mk format_string j []]
      let f_str := format_string ++ " - " ++ width.toStr ++ "x" ++ height.toStr
      if pyIn "None" f_str then menus1 else
      if pyIn "range" format_string then menus1 else
      let res_menu_string := width.toStr ++ "x" ++ height.toStr
      if pyIn "]x[" res_menu_string then menus1 else
      let acts : List FormatAction :=
        match fmt.framerate with
        | RateVal.rlist rs => mkActions format_name format_string width height rs
        | _ => []
      menus1.map (fun m =>
        if m.title == format_string then
          FormatMenu.mk m.title m.createdBy (m.resolutions ++ [(j, ResMenu.mk res_menu_string acts)])
        else m)

/-- TcamView.create_format_menu (source lines 375-479): fold the loop body
over the caps structures with their indices; the final menu adds the
format_dict values in insertion order, which is exactly the accumulated
list. -/
def create_format_menu (caps : List CapsStructure) : List FormatMenu :=
  caps.enum.foldl (fun menus p => processStructure p.1 menus p.2) []

/-- Whether a top-level menu or any of its resolution submenus was produced
from the caps structure at index j. -/
def derivedFrom (m : FormatMenu) (j : Nat) : Bool :=
  m.createdBy == j || m.resolutions.any (fun p => p.1 == j)

/-- The synthetic capability list of claim C5, in the order the claim lists
the entries: index 0 a raw BGRx entry, index 1 a raw entry whose format
field contains both BGRx and GRAY (a GstValueList rendered with braces),
index 2 a JPEG entry, index 3 an entry with range-valued resolution, index 4
a wildcard (ANY) entry. -/
def c5Caps : List CapsStructure :=
  [CapsStructure.mk "video/x-raw" (some "BGRx") (GVal.intVal 640) (GVal.intVal 480)
      (RateVal.rlist ["30/1"]),
   CapsStructure.mk "video/x-raw" (some "\x7b GRAY8, BGRx \x7d") (GVal.intVal 640)
      (GVal.intVal 480) (RateVal.rlist ["30/1"]),
   CapsStructure.mk "image/jpeg" none (GVal.intVal 1920) (GVal.intVal 1080)
      (RateVal.rlist ["30/1"]),
   CapsStructure.mk "video/x-raw" (some "GRAY8") (GVal.intRange 96 2592)
      (GVal.intRange 2 1944) (RateVal.fractionRange 5 30),
   CapsStructure.mk "ANY" none GVal.noneVal GVal.noneVal RateVal.noneVal]

/-- Claim C5 exactly as stated, over the synthetic list: exactly one
top-level menu for GRAY8, exactly one for image/jpeg, and no menu content
derived from the wildcard entry (index 4), the range-valued-resolution entry
(index 3), or the raw BGRx entry (index 0). -/
def c5ClaimAsStated : Bool :=
  (((create_format_menu c5Caps).filter (fun m => m.title == "GRAY8")).length == 1)
  && (((create_format_menu c5Caps).filter (fun m => m.title == "image/jpeg")).length == 1)
  && ((create_format_menu c5Caps).all (fun m =>
        !(derivedFrom m 0) && !(derivedFrom m 3) && !(derivedFrom m 4)))

end FormatMenuBuilder

namespace TcamView

theorem invokedCbs_fire_device_lost (callbacks : List Nat) :
    invokedCbs (fire_device_lost callbacks) = callbacks := by
  induction callbacks with
  | nil => rfl
  | cons c cs ih =>
    simp only [fire_device_lost, invokedCbs, List.map_cons, List.filterMap_cons] at ih ⊢
    simpa using ih

theorem requestsState_fire_device_lost (callbacks : List Nat) :
    requestsState (fire_device_lost callbacks) = false := by
  induction callbacks with
  | nil => rfl
  | cons c cs ih =>
    simp only [fire_device_lost, requestsState, List.map_cons, List.any_cons] at ih ⊢
    simp [ih]

/-- C1: an asynchronous error notification whose source element is the
device source (name tcambin-source) and whose message text is exactly
"Device lost" invokes every callback in device_lost_callbacks exactly once,
in registration order (register_device_lost appends, so the list order is
registration order); an error with any other message text, or from any
non-source element, invokes no registered observer. -/
theorem on_error_device_lost_observers (callbacks : List Nat) (msg : ErrorMsg) :
    (∀ cb : Nat, register_device_lost callbacks cb = callbacks ++ [cb])
    ∧ (msg.srcName = "tcambin-source" → msg.errMessage = "Device lost" →
        invokedCbs (on_error callbacks msg) = callbacks)
    ∧ (msg.errMessage ≠ "Device lost" ∨ msg.srcName ≠ "tcambin-source" →
        invokedCbs (on_error callbacks msg) = []) := by
  obtain ⟨sn, em, dbg⟩ := msg
  refine ⟨fun cb => rfl, fun h1 h2 => ?_, fun h => ?_⟩
  · replace h1 : sn = "tcambin-source" := h1
    replace h2 : em = "Device lost" := h2
    subst h1; subst h2
    exact invokedCbs_fire_device_lost callbacks
  · replace h : em ≠ "Device lost" ∨ sn ≠ "tcambin-source" := h
    by_cases hs : sn = "tcambin-source"
    · have hm : em ≠ "Device lost" := by
        rcases h with h | h
        · exact h
        · exact absurd hs h
      subst hs
      cases dbg <;> simp [on_error, hm, invokedCbs]
    · cases dbg <;> simp [on_error, hs, invokedCbs]

/-- Witness for C1 at concrete inputs: two observers and a device-lost
message from the source, and the same observers with a different message. -/
theorem on_error_device_lost_observers_witness :
    invokedCbs (on_error [7, 3] (ErrorMsg.mk "tcambin-source" "Device lost" none)) = [7, 3]
    ∧ invokedCbs (on_error [7, 3] (ErrorMsg.mk "tcambin-source" "Could not negotiate format" none)) = [] :=
  ⟨(on_error_device_lost_observers [7, 3]
      (ErrorMsg.mk "tcambin-source" "Device lost" none)).2.1 rfl rfl,
   (on_error_device_lost_observers [7, 3]
      (ErrorMsg.mk "tcambin-source" "Could not negotiate format" none)).2.2
     (Or.inl (by decide))⟩

/-- C2 counterexample: handling a "Device lost" source error invokes the
registered observer but the handler performs no pipeline state request at
all — in particular it does not transition the pipeline to the null state.
The claim that the pipeline is stopped once all observers have been invoked
is therefore false of on_error/fire_device_lost. -/
theorem on_error_device_lost_no_stop_counterexample :
    invokedCbs (on_error [0] (ErrorMsg.mk "tcambin-source" "Device lost" none)) = [0]
    ∧ requestsState (on_error [0] (ErrorMsg.mk "tcambin-source" "Device lost" none)) = false := by
  decide

/-- C2 (amended): after a "Device lost" source error is handled, all
registered observers have been invoked and the handler has issued no
pipeline state transition of its own: the trace is exactly the log entry
followed by the observer invocations, stopping is left to the observers, and
no reconnect or any further pipeline operation is attempted. -/
theorem on_error_device_lost_trace (callbacks : List Nat) (dbg : Option String) :
    on_error callbacks (ErrorMsg.mk "tcambin-source" "Device lost" dbg) =
      EAction.logError "Received device lost message" :: fire_device_lost callbacks
    ∧ requestsState (on_error callbacks (ErrorMsg.mk "tcambin-source" "Device lost" dbg)) = false := by
  exact ⟨rfl, requestsState_fire_device_lost callbacks⟩

/-- C3 counterexample: in the state left by TcamView.__init__ no pipeline
has been constructed (self.pipeline is None), and stop() raises an
AttributeError on the None attribute access instead of succeeding, so stop
is not valid from the uninitialized state. -/
theorem stop_uninitialized_counterexample :
    stop initialViewState =
      Except.error "AttributeError: NoneType object has no attribute set_state" := rfl

/-- C3 (amended): whenever a pipeline exists, stop() succeeds (requests the
null state without raising) from every pipeline state, and calling it
repeatedly is idempotent; only the uninitialized state, in which no pipeline
has ever been constructed, makes it raise. -/
theorem stop_with_pipeline (v : ViewState) (s : GstState) (h : v.pipeline = some s) :
    stop v = Except.ok (ViewState.mk (some GstState.null))
    ∧ stop (ViewState.mk (some GstState.null)) = Except.ok (ViewState.mk (some GstState.null)) := by
  cases v with
  | mk p =>
    cases p with
    | none => cases h
    | some s0 => exact ⟨rfl, rfl⟩

/-- Witness for C3 (amended) at a concrete input: a session whose pipeline
is currently playing. -/
theorem stop_with_pipeline_witness :
    stop (ViewState.mk (some GstState.playing)) = Except.ok (ViewState.mk (some GstState.null))
    ∧ stop (ViewState.mk (some GstState.null)) = Except.ok (ViewState.mk (some GstState.null)) :=
  stop_with_pipeline (ViewState.mk (some GstState.playing)) GstState.playing rfl

/-- C4: play(format?) first constructs a pipeline when none exists (the
construction itself leaves the pipeline in the ready state); if the existing
pipeline reports the playing state, a null-state transition is issued before
anything else; a supplied format string is applied as a device-caps
constraint next; and the call always ends by requesting the playing state —
in exactly that order, as the four case equations and the final-action fact
state. -/
theorem play_action_order (pipeline : Option GstState) (video_format : Option String) :
    ((play pipeline video_format).getLast? = some (PAction.setState GstState.playing))
    ∧ (pipeline = none →
        play pipeline video_format =
          PAction.createPipeline :: PAction.setState GstState.ready ::
            ((match video_format with
              | some f => [PAction.setCaps f]
              | none => []) ++ [PAction.setState GstState.playing]))
    ∧ (pipeline = some GstState.playing →
        play pipeline video_format =
          PAction.setState GstState.null ::
            ((match video_format with
              | some f => [PAction.setCaps f]
              | none => []) ++ [PAction.setState GstState.playing]))
    ∧ (∀ s : GstState, pipeline = some s → s ≠ GstState.playing →
        play pipeline video_format =
          (match video_format with
           | some f => [PAction.setCaps f]
           | none => []) ++ [PAction.setState GstState.playing]) := by
  refine ⟨?_, ?_, ?_, ?_⟩
  · cases pipeline with
    | none => cases video_format <;> rfl
    | some s =>
      cases s <;> cases video_format <;> rfl
  · intro h; subst h; cases video_format <;> rfl
  · intro h; subst h; cases video_format <;> rfl
  · intro s h hne; subst h
    cases s <;> cases video_format <;> first
      | rfl
      | exact absurd rfl hne

/-- Witness for C4 at concrete inputs: a pipeline currently playing and a
format string. -/
theorem play_action_order_witness :
    play (some GstState.playing) (some "video/x-raw,format=GRAY8,width=640,height=480,framerate=30/1") =
      PAction.setState GstState.null ::
        ([PAction.setCaps "video/x-raw,format=GRAY8,width=640,height=480,framerate=30/1"] ++
          [PAction.setState GstState.playing]) :=
  (play_action_order (some GstState.playing)
      (some "video/x-raw,format=GRAY8,width=640,height=480,framerate=30/1")).2.2.1 rfl

end TcamView

namespace TcamScreen

theorem wheelEvent_gt (z : ℚ) (b : Bool) (h : 64 / 100 < z) :
    64 / 100 < wheelEvent z b := by
  cases b
  · have hdef : wheelEvent z false =
        if z * zoomOutFactor ≤ 64 / 100 then z else z * zoomOutFactor := rfl
    rw [hdef]
    split
    · exact h
    · exact lt_of_not_le (by assumption)
  · have hdef : wheelEvent z true =
        if z * zoomInFactor ≤ 64 / 100 then z else z * zoomInFactor := rfl
    rw [hdef]
    split
    · exact h
    · exact lt_of_not_le (by assumption)

theorem wheelEvents_gt (z : ℚ) (steps : List Bool) (h : 64 / 100 < z) :
    64 / 100 < wheelEvents z steps := by
  induction steps generalizing z with
  | nil => exact h
  | cons b bs ih => exact ih (wheelEvent z b) (wheelEvent_gt z b h)

/-- C7: for every sequence of wheel-zoom steps starting from the initial
cumulative zoom factor 1.0 (forward steps multiply by 1.25, backward steps
by 1/1.25, and a step whose product would be at or below 0.64 is a no-op),
the cumulative zoom factor remains strictly greater than 0.64 after every
step — every prefix of a step sequence is itself a step sequence, so the
statement over all sequences covers every intermediate factor. -/
theorem zoom_factor_above_floor (steps : List Bool) :
    64 / 100 < wheelEvents 1 steps :=
  wheelEvents_gt 1 steps (by norm_num)

end TcamScreen

namespace ViewItem

/-- A concrete 4x4 all-black pixmap used to instantiate the pointer-status
theorems. -/
def testPixmap : QPixmap := QPixmap.mk 4 4 (fun _ _ => opaqueBlack)

/-- C8: when a new frame is received while the pointer is not over the
surface, the emitted pointer status is (false, opaque black); when a new
frame is received while the pointer is over the surface but its last
recorded coordinate lies outside the bounds test the code applies to the new
bitmap (a coordinate strictly greater than the width or the height — the
boundary convention is settled by the C10 theorem), the emitted status is
(true, Python None: no meaningful color) and the recorded coordinate is
reset to the unset value (-1, -1). -/
theorem on_new_pixmap_pointer_status (v : ItemState) (pm : QPixmap) :
    (v.mouse_over = false → (on_new_pixmap v pm).1 = (false, some opaqueBlack))
    ∧ (v.mouse_over = true →
        ((pm.width : Int) < v.mouse_position_x ∨ (pm.height : Int) < v.mouse_position_y) →
        (on_new_pixmap v pm).1 = (true, none)
        ∧ (on_new_pixmap v pm).2.mouse_position_x = -1
        ∧ (on_new_pixmap v pm).2.mouse_position_y = -1) := by
  obtain ⟨mo, mx, my, pm0⟩ := v
  constructor
  · intro hmo
    replace hmo : mo = false := hmo
    subst hmo
    rfl
  · intro hmo hout
    replace hmo : mo = true := hmo
    subst hmo
    replace hout : (pm.width : Int) < mx ∨ (pm.height : Int) < my := hout
    have hneg : ¬(mx ≤ (pm.width : Int) ∧ my ≤ (pm.height : Int)) := by
      rcases hout with h1 | h1
      · exact fun hc => absurd hc.1 (not_le.mpr h1)
      · exact fun hc => absurd hc.2 (not_le.mpr h1)
    simp [on_new_pixmap, get_mouse_color, hneg]

/-- Witness for C8 at concrete inputs: a pointer-absent state and a
pointer-present state whose recorded x coordinate 10 exceeds the 4-pixel
bitmap width. -/
theorem on_new_pixmap_pointer_status_witness :
    (on_new_pixmap (ItemState.mk false 0 0 testPixmap) testPixmap).1 = (false, some opaqueBlack)
    ∧ ((on_new_pixmap (ItemState.mk true 10 0 testPixmap) testPixmap).1 = (true, none)
        ∧ (on_new_pixmap (ItemState.mk true 10 0 testPixmap) testPixmap).2.mouse_position_x = -1
        ∧ (on_new_pixmap (ItemState.mk true 10 0 testPixmap) testPixmap).2.mouse_position_y = -1) :=
  ⟨(on_new_pixmap_pointer_status (ItemState.mk false 0 0 testPixmap) testPixmap).1 rfl,
   (on_new_pixmap_pointer_status (ItemState.mk true 10 0 testPixmap) testPixmap).2 rfl
     (Or.inl (by decide))⟩

/-- C10: the in-bounds test of get_mouse_color accepts coordinates less than
or equal to the pixmap dimensions, so a pointer whose recorded x coordinate
equals the width (with y within the height) is treated as in-bounds and the
pixel at that coordinate is queried with the state left untouched, even
though valid pixel columns run only up to width-1; and the coordinate-reset
branch (identified by its Python-None result) is taken exactly when a
coordinate is strictly greater than the corresponding dimension. -/
theorem get_mouse_color_boundary (v : ItemState) (hover : v.mouse_over = true) :
    (v.mouse_position_x = (v.pixmap.width : Int) →
      v.mouse_position_y ≤ (v.pixmap.height : Int) →
      get_mouse_color v =
        (some (v.pixmap.pixelColor ((v.pixmap.width : Int)) v.mouse_position_y), v))
    ∧ ((get_mouse_color v).1 = none ↔
        ((v.pixmap.width : Int) < v.mouse_position_x ∨
          (v.pixmap.height : Int) < v.mouse_position_y)) := by
  obtain ⟨mo, mx, my, pm⟩ := v
  replace hover : mo = true := hover
  subst hover
  constructor
  · intro hx hy
    replace hx : mx = (pm.width : Int) := hx
    replace hy : my ≤ (pm.height : Int) := hy
    subst hx
    simp [get_mouse_color, hy]
  · by_cases hin : mx ≤ (pm.width : Int) ∧ my ≤ (pm.height : Int)
    · have heq : get_mouse_color (ItemState.mk true mx my pm) =
          (some (pm.pixelColor mx my), ItemState.mk true mx my pm) := by
        simp [get_mouse_color, hin]
      rw [heq]
      simp only [Option.some_ne_none, false_iff]
      omega
    · have heq : get_mouse_color (ItemState.mk true mx my pm) =
          (none, ItemState.mk true (-1) (-1) pm) := by
        simp [get_mouse_color, hin]
      rw [heq]
      simp only [true_iff]
      omega

/-- Witness for C10 at a concrete input: pointer at x = 4 on a 4-pixel-wide
bitmap is treated as in-bounds and the pixel there is queried. -/
theorem get_mouse_color_boundary_witness :
    get_mouse_color (ItemState.mk true 4 2 testPixmap) =
      (some (testPixmap.pixelColor ((testPixmap.width : Int)) 2), ItemState.mk true 4 2 testPixmap)
    ∧ ((get_mouse_color (ItemState.mk true 4 2 testPixmap)).1 = none ↔
        ((testPixmap.width : Int) < 4 ∨ (testPixmap.height : Int) < 2)) :=
  ⟨(get_mouse_color_boundary (ItemState.mk true 4 2 testPixmap) rfl).1 (by decide) (by decide),
   (get_mouse_color_boundary (ItemState.mk true 4 2 testPixmap) rfl).2⟩

end ViewItem

namespace EventFilter

/-- C9: TcamView.eventFilter tests event.type — the bound method object, not
the result of calling it — against the QEvent.KeyPress enum integer; a
Python bound method never equals an int, so the guard is false for every
event: the F11 branch is never taken, toggle_fullscreen is never called, and
the filter always returns the default QObject.eventFilter result. -/
theorem eventFilter_never_toggles (event : QEventObj) :
    eventFilter event = FilterResult.mk false true := rfl

end EventFilter

namespace FormatMenuBuilder

/-- C5 counterexample: on the synthetic capability list the claim as stated
is false.  Its conjunct that no menu content derives from the raw BGRx entry
fails: the single GRAY8 top-level menu (and its resolution submenu) is
produced precisely from the raw BGRx entry at index 0, whose format the
builder normalizes from BGRx to GRAY8 — with the BGRx+GRAY entry dropped,
nothing else could have produced it. -/
theorem create_format_menu_c5_counterexample : c5ClaimAsStated = false := by decide

/-- C5 (amended): for a capability list containing a raw BGRx entry, a raw
entry whose format contains both BGRx and GRAY, a JPEG entry, an entry with
range-valued resolution and a wildcard (ANY) entry, the built menu is
exactly one top-level menu for GRAY8 followed by one for image/jpeg; no menu
content derives from the wildcard entry or from the range-valued-resolution
entry; no top-level menu is labeled BGRx; and the GRAY8 menu derives from
the raw BGRx entry (index 0) via the BGRx-to-GRAY8 normalization — the only
departure from the claim, which asserted that no entry derives from the raw
BGRx entry. -/
theorem create_format_menu_c5_amended :
    create_format_menu c5Caps =
      [FormatMenu.mk "GRAY8" 0
          [(0, ResMenu.mk "640x480"
              [FormatAction.mk "30/1"
                "video/x-raw,format=GRAY8,width=640,height=480,framerate=30/1"])],
       FormatMenu.mk "image/jpeg" 2
          [(2, ResMenu.mk "1920x1080"
              [FormatAction.mk "30/1"
                "image/jpeg,,width=1920,height=1080,framerate=30/1"])]]
    ∧ ((create_format_menu c5Caps).filter (fun m => m.title == "GRAY8")).length = 1
    ∧ ((create_format_menu c5Caps).filter (fun m => m.title == "image/jpeg")).length = 1
    ∧ (create_format_menu c5Caps).all (fun m =>
        !(derivedFrom m 3) && !(derivedFrom m 4) && !(m.title == "BGRx")) = true
    ∧ (create_format_menu c5Caps).any (fun m =>
        m.title == "GRAY8" && derivedFrom m 0) = true := by
  refine ⟨by decide, by decide, by decide, by decide, by decide⟩

/-- C6: for every retained capability entry whose frame-rate set is a
discrete list, the resolution submenu built for it carries exactly one
action per rate, in list order, labeled with the rate, and each action's
triggered handler passes play the fully qualified capability-constraint
string embedding the structure name, format, width, height and that literal
rate; for image/jpeg entries the raw format= field is omitted (the empty
field between the two commas).  The hypotheses state exactly that the entry
is retained: its name is not a wildcard and not image/jpeg (that case is the
second conjunct), its format needs no BGRx normalization and is not the
None string, its rendered strings carry no None and no range markers. -/
theorem create_format_menu_discrete_rates
    (n fs : String) (w h : Int) (rs : List String)
    (hany : pyIn "ANY" n = false)
    (hjp : (n == "image/jpeg") = false)
    (hfjp : (fs == "image/jpeg") = false)
    (hbgrx : pyIn "BGRx" fs = false)
    (hnones : (fs == "None") = false)
    (hfstr : pyIn "None" (fs ++ " - " ++ toString w ++ "x" ++ toString h) = false)
    (hrange : pyIn "range" fs = false)
    (hres : pyIn "]x[" (toString w ++ "x" ++ toString h) = false)
    (hjstr : pyIn "None" ("image/jpeg - " ++ toString w ++ "x" ++ toString h) = false) :
    create_format_menu
        [CapsStructure.mk n (some fs) (GVal.intVal w) (GVal.intVal h) (RateVal.rlist rs)] =
      [FormatMenu.mk fs 0
        [(0, ResMenu.mk (toString w ++ "x" ++ toString h)
            (rs.map (fun rate => FormatAction.mk rate
              (n ++ ",format=" ++ fs ++ ",width=" ++ toString w ++ ",height=" ++
                toString h ++ ",framerate=" ++ rate))))]]
    ∧ create_format_menu
        [CapsStructure.mk "image/jpeg" none (GVal.intVal w) (GVal.intVal h) (RateVal.rlist rs)] =
      [FormatMenu.mk "image/jpeg" 0
        [(0, ResMenu.mk (toString w ++ "x" ++ toString h)
            (rs.map (fun rate => FormatAction.mk rate
              ("image/jpeg,,width=" ++ toString w ++ ",height=" ++ toString h ++
                ",framerate=" ++ rate))))]]
    ∧ (mkActions n fs (GVal.intVal w) (GVal.intVal h) rs).length = rs.length := by
  refine ⟨?_, ?_, ?_⟩
  · have h0 : create_format_menu
        [CapsStructure.mk n (some fs) (GVal.intVal w) (GVal.intVal h) (RateVal.rlist rs)] =
        processStructure 0 []
          (CapsStructure.mk n (some fs) (GVal.intVal w) (GVal.intVal h) (RateVal.rlist rs)) := rfl
    rw [h0]
    unfold processStructure
    simp [hany, hjp, hfjp, hbgrx, hnones, hfstr, hrange, hres, GVal.toStr, mkActions]
  · have j1 : pyIn "ANY" "image/jpeg" = false := by decide
    have j2 : pyIn "BGRx" "image/jpeg" = false := by decide
    have j3 : ("image/jpeg" == "None") = false := by decide
    have j4 : pyIn "range" "image/jpeg" = false := by decide
    have h0 : create_format_menu
        [CapsStructure.mk "image/jpeg" none (GVal.intVal w) (GVal.intVal h) (RateVal.rlist rs)] =
        processStructure 0 []
          (CapsStructure.mk "image/jpeg" none (GVal.intVal w) (GVal.intVal h) (RateVal.rlist rs)) := rfl
    rw [h0]
    unfold processStructure
    simp [j1, j2, j3, j4, hjstr, hres, GVal.toStr, mkActions]
  · simp [mkActions]

/-- Witness for C6 at concrete inputs: a raw GRAY8 entry and a JPEG entry at
640x480 with the discrete rate list 5/1, 10/1, 30/1 produce three actions
each, one per literal rate. -/
theorem create_format_menu_discrete_rates_witness :
    pyIn "ANY" "video/x-raw" = false
    ∧ (create_format_menu
          [CapsStructure.mk "video/x-raw" (some "GRAY8") (GVal.intVal 640) (GVal.intVal 480)
            (RateVal.rlist ["5/1", "10/1", "30/1"])] =
        [FormatMenu.mk "GRAY8" 0
          [(0, ResMenu.mk "640x480"
              [FormatAction.mk "5/1"
                  "video/x-raw,format=GRAY8,width=640,height=480,framerate=5/1",
               FormatAction.mk "10/1"
                  "video/x-raw,format=GRAY8,width=640,height=480,framerate=10/1",
               FormatAction.mk "30/1"
                  "video/x-raw,format=GRAY8,width=640,height=480,framerate=30/1"])]]
      ∧ create_format_menu
          [CapsStructure.mk "image/jpeg" none (GVal.intVal 640) (GVal.intVal 480)
            (RateVal.rlist ["5/1", "10/1", "30/1"])] =
        [FormatMenu.mk "image/jpeg" 0
          [(0, ResMenu.mk "640x480"
              [FormatAction.mk "5/1" "image/jpeg,,width=640,height=480,framerate=5/1",
               FormatAction.mk "10/1" "image/jpeg,,width=640,height=480,framerate=10/1",
               FormatAction.mk "30/1" "image/jpeg,,width=640,height=480,framerate=30/1"])]]
      ∧ (mkActions "video/x-raw" "GRAY8" (GVal.intVal 640) (GVal.intVal 480)
          ["5/1", "10/1", "30/1"]).length = 3) :=
  ⟨by decide,
   create_format_menu_discrete_rates "video/x-raw" "GRAY8" 640 480 ["5/1", "10/1", "30/1"]
     (by decide) (by decide) (by decide) (by decide) (by decide) (by decide) (by decide)
     (by decide) (by decide)⟩

end FormatMenuBuilder
